import Mathlib

set_option linter.unusedVariables false

/-!
# Verification of the trudy-backend resource lifecycle

A shallow embedding of the tenant-scoped resource endpoints of the
trudy-backend repository (agents and voices), faithful to the Python
sources under `src/app`:

* `app/core/auth.py` — tenant (organization) resolution from verified
  Clerk JWT claims (`verify_clerk_jwt`, `get_current_user`).
* `app/api/v1/agents/create.py` — the modular agent create endpoint
  (insert with status `creating`, remote Ultravox create, commit to
  `active` / degrade to `draft`).
* `app/api/v1/agents.py` — the monolithic agent router (`get_agent`,
  `delete_agent`, legacy `create_agent`).
* `app/api/v1/voices.py` — voice clone/import creation, `get_voice`,
  `update_voice`, `delete_voice`.

Rows of the local store are modelled as association lists from column
names to nullable string values, and the consumed persistence interface
(`select` / `insert` / `update` / `delete` keyed by a filter map) is
modelled over those rows.  Endpoint handlers become pure functions from
an input state (store plus the outcomes of the external provider calls,
which are parameters) to a result, a final store, and a trace of the
side-effecting events they issue, in order.
-/

/-! ## Rows, filter maps and the local persistence interface

The local store consumed by the endpoints (Supabase via
`DatabaseService`) is used exclusively through filter-map keyed
`select` / `select_one` / `insert` / `update` / `delete` calls; the
spec describes it as a tenant-scoped filter-map interface.  A row is an
association list from column names to nullable values (a Python dict
with possibly-`None` values); a filter map is an association list of
required column/value pairs, and an update changeset is a row fragment
whose fields overwrite those of matching rows. -/

/-- A database row: column name to nullable string value.
`none` models SQL NULL / a Python `None` value. -/
abbrev Row := List (String × Option String)

/-- A filter map: each listed column must equal the given (non-null) value. -/
abbrev FilterMap := List (String × String)

/-- Look up a column of a row.  Returns `none` both when the column is
absent and when it is present with a NULL value — exactly how the
Python handlers read fields with `record.get(key)`. -/
def getField : Row → String → Option String
  | [], _ => none
  | (k, v) :: rest, key => if key = k then v else getField rest key

/-- A row matches a filter map when every filter column is present with
the required (non-null) value. -/
def rowMatches (r : Row) (f : FilterMap) : Bool :=
  f.all fun p => getField r p.fst == some p.snd

/-- `select`: all rows matching the filter, in store order. -/
def selectRows (t : List Row) (f : FilterMap) : List Row :=
  t.filter fun r => rowMatches r f

/-- `select_one`: the first row matching the filter, if any. -/
def selectOne (t : List Row) (f : FilterMap) : Option Row :=
  (selectRows t f).head?

/-- `insert`: append a row to the table. -/
def insertRow (t : List Row) (r : Row) : List Row :=
  t ++ [r]

/-- Overwrite one field of a row (used by `update` changesets). -/
def setField (r : Row) (k : String) (v : Option String) : Row :=
  (k, v) :: r.filter fun p => !(p.fst == k)

/-- Apply an update changeset to a single row. -/
def applyChanges (r : Row) (changes : Row) : Row :=
  changes.foldl (fun acc p => setField acc p.fst p.snd) r

/-- `update`: apply the changeset to every row matching the filter. -/
def updateRows (t : List Row) (f : FilterMap) (changes : Row) : List Row :=
  t.map fun r => if rowMatches r f then applyChanges r changes else r

/-- `delete`: remove every row matching the filter. -/
def deleteRows (t : List Row) (f : FilterMap) : List Row :=
  t.filter fun r => !(rowMatches r f)

/-- The column names a filter map constrains. -/
def filterKeys (f : FilterMap) : List String :=
  f.map Prod.fst

/-! ## Error taxonomy

From `app/core/exceptions.py` as used by the handlers: the endpoints
raise `ValidationError`, `ForbiddenError`, `NotFoundError`,
`UnauthorizedError` and `ProviderError{provider, http_status, message}`.
No `TenantResolutionError` and no `IdempotencyConflictError` class
exists anywhere in the sources; the names appear only in the spec. -/

/-- The error values the embedded handlers can surface. -/
inductive ApiError where
  | validation (msg : String)
  | forbidden (msg : String)
  | notFound (resource : String) (id : String)
  | unauthorized (msg : String)
  | provider (providerName : String) (httpStatus : Nat) (msg : String)
  | idemConflict
  deriving Repr, DecidableEq

/-- True exactly on `ApiError.provider` values. -/
def ApiError.isProviderError : ApiError → Bool
  | .provider _ _ _ => true
  | _ => false

/-! ## Tenant resolution (`app/core/auth.py`)

`verify_clerk_jwt` (lines 149–162) computes an effective organization
id from the verified claims: when the `org_id` claim is Python-falsy
(absent or the empty string) and the `sub` (user id) claim is truthy,
the user id becomes the organization id, so a personal workspace forms
a per-user partition.  `get_current_user` (lines 349–368) then raises
`UnauthorizedError` when the user id is missing and falls back to the
user id once more if the effective organization id is still falsy.  The
`x_client_id` header parameter is accepted but never read, and no
trimming is performed anywhere. -/

/-- Python truthiness of an optional string: `None` and `""` are falsy. -/
def truthy : Option String → Bool
  | none => false
  | some s => !(s == "")

/-- The verified-claim fields tenant resolution reads. -/
structure Claims where
  /-- The `sub` claim: the Clerk user id. -/
  sub : Option String
  /-- The `org_id` claim: the Clerk organization id, absent in a
  personal workspace. -/
  orgId : Option String
  deriving Repr, DecidableEq

/-- `verify_clerk_jwt` lines 149–162: the `_effective_org_id` stored in
the claims — the `org_id` claim, or the user id when `org_id` is falsy
and the user id is truthy. -/
def effectiveOrgId (c : Claims) : Option String :=
  if !truthy c.orgId && truthy c.sub then c.sub else c.orgId

/-- `get_current_user` lines 349–368: resolve the tenant partition key
(`clerk_org_id`) from the claims.  The explicit `x_client_id` request
header is accepted as a parameter but ignored.  Raises
`UnauthorizedError` when the user id claim is missing or empty. -/
def resolveTenant (c : Claims) (xClientId : Option String) : Except ApiError String :=
  let eff := effectiveOrgId c
  let clerkOrg := if truthy eff then eff else c.orgId
  if !truthy c.sub then
    .error (.unauthorized "Invalid token: missing user ID")
  else
    let org := if truthy clerkOrg then clerkOrg else c.sub
    .ok (org.getD "")

/-! ## Side-effect traces

Each embedded handler also returns the ordered list of side-effecting
operations it issued: local-store calls with their filter maps and
remote provider calls.  Claims about operation ordering ("persist
before the remote call", "remote delete attempted first") and about
filter-map contents are stated over these traces. -/

/-- One side-effecting operation issued by a handler. -/
inductive Ev where
  | insertEv (table : String) (r : Row)
  | selectEv (table : String) (f : FilterMap)
  | updateEv (table : String) (f : FilterMap)
  | deleteEv (table : String) (f : FilterMap)
  | remoteCreate (providerName : String)
  | remoteDelete (providerName : String)
  deriving Repr, DecidableEq

/-- Every remote create in the trace is preceded by a local insert whose
row already carries status `creating` or `draft` (the discoverability
ordering of the spec's create algorithm, step 2). -/
def insertBeforeRemote : List Ev → Bool → Bool
  | [], _ => true
  | .insertEv _ r :: rest, seen =>
      insertBeforeRemote rest
        (seen || getField r "status" == some "creating" || getField r "status" == some "draft")
  | .remoteCreate _ :: rest, seen => seen && insertBeforeRemote rest seen
  | _ :: rest, seen => insertBeforeRemote rest seen

/-! ## Agent creation (`app/api/v1/agents/create.py`)

The modular create endpoint (the one mounted by
`app/api/v1/agents/__init__.py`): partition by `clerk_org_id`, validate
eligibility via `validate_agent_for_ultravox_sync`, insert the record
with status `creating` **before** the Ultravox call, then on success
update `{ultravox_agent_id, status: "active"}` keyed by
`(id, clerk_org_id)` and re-fetch; on any Ultravox failure update the
record to status `draft` and re-raise the error as a `ProviderError`.

`validate_agent_for_ultravox_sync` and `create_agent_ultravox_first`
live in `app/services/agent.py`, which is not among the provided
sources; their outcomes (`can_sync` plus error text, and the Ultravox
response) are therefore inputs of the embedded handler.  List-valued
configuration columns (`tools`, `knowledge_bases`, …) are elided: no
claim reads them. -/

/-- The request-body fields of `AgentCreate` that the embedding keeps. -/
structure AgentInput where
  name : String
  description : Option String
  voiceId : String
  systemPrompt : String
  deriving Repr, DecidableEq

/-- The outcome of `create_agent_ultravox_first`: the call returned a
response (whose `agentId` field may be missing), or it raised. -/
inductive UvCreate where
  | success (agentId : Option String)
  | failure (e : ApiError)
  deriving Repr, DecidableEq

/-- The `agent_record` dict built by `create_agent` (create.py lines
89-102) just before insertion: status `creating`, no
`ultravox_agent_id` key yet. -/
def agentRecord (aid org now : String) (inp : AgentInput) : Row :=
  [ ("id", some aid),
    ("clerk_org_id", some org),
    ("name", some inp.name),
    ("description", inp.description),
    ("voice_id", some inp.voiceId),
    ("system_prompt", some inp.systemPrompt),
    ("model", some "ultravox-v0.6"),
    ("status", some "creating"),
    ("created_at", some now),
    ("updated_at", some now) ]

/-- The `(id, clerk_org_id)` filter map used by every store call of the
modular create endpoint after the insert. -/
def agentKeyFilter (aid org : String) : FilterMap :=
  [("id", aid), ("clerk_org_id", org)]

deriving instance DecidableEq for Except

/-- Result of one run of the modular agent create endpoint: the final
`agents` table, the surfaced response or error, and the event trace. -/
structure AgentCreateOut where
  agents : List Row
  resp : Except ApiError Row
  trace : List Ev
  deriving Repr, DecidableEq

/-- `create_agent` of `app/api/v1/agents/create.py` (idempotency layer
aside — see `createAgentWithIdem`).  Parameters: current store, the
resolved tenant `org`, the request body, the generated UUID `aid`, the
timestamp `now`, the eligibility outcome (`canSync`, `valErrors`) of
`validate_agent_for_ultravox_sync`, and the Ultravox call outcome. -/
def createAgent (s : List Row) (org : String) (inp : AgentInput) (aid now : String)
    (canSync : Bool) (valErrors : String) (uv : UvCreate) : AgentCreateOut :=
  -- line 56: `if not clerk_org_id: raise ValidationError(...)`
  if org = "" then
    ⟨s, .error (.validation "Missing organization ID in token"), []⟩
  -- lines 155-160: eligibility validation short-circuits with an error
  else if !canSync then
    ⟨s, .error (.validation ("Agent validation failed: " ++ valErrors)), []⟩
  else
    -- line 174: insert FIRST (before external operations), status `creating`
    let rec0 := agentRecord aid org now inp
    let s1 := insertRow s rec0
    let filt := agentKeyFilter aid org
    match uv with
    | .success (some rid) =>
        -- lines 222-225: commit `{ultravox_agent_id, status: "active"}`
        let s2 := updateRows s1 filt [("ultravox_agent_id", some rid), ("status", some "active")]
        -- lines 267-292: re-fetch the committed record
        match selectOne s2 filt with
        | some row =>
            ⟨s2, .ok row,
              [.insertEv "agents" rec0, .remoteCreate "ultravox", .updateEv "agents" filt,
               .selectEv "agents" filt]⟩
        | none =>
            -- line 279: debug re-fetch without the org filter, then line 292
            ⟨s2, .error (.validation ("Failed to create/retrieve agent: " ++ aid)),
              [.insertEv "agents" rec0, .remoteCreate "ultravox", .updateEv "agents" filt,
               .selectEv "agents" filt, .selectEv "agents" [("id", aid)]]⟩
    | .success none =>
        -- line 218 `ValueError` lands in the lines 233-257 handler:
        -- degrade to `draft`, wrap into a ProviderError
        let s2 := updateRows s1 filt [("status", some "draft")]
        ⟨s2, .error (.provider "ultravox" 500
            "Failed to create agent in Ultravox: Ultravox did not return agentId"),
          [.insertEv "agents" rec0, .remoteCreate "ultravox", .updateEv "agents" filt]⟩
    | .failure e =>
        -- lines 233-257: degrade to `draft`, re-raise ProviderErrors
        -- as-is, wrap anything else into a ProviderError(ultravox, 500)
        let s2 := updateRows s1 filt [("status", some "draft")]
        let surfaced := if e.isProviderError then e
          else .provider "ultravox" 500 "Failed to create agent in Ultravox"
        ⟨s2, .error surfaced,
          [.insertEv "agents" rec0, .remoteCreate "ultravox", .updateEv "agents" filt]⟩

/-- Modelled from the spec: the modular GET endpoint
(`app/api/v1/agents/get.py`, imported by the agents package
`__init__.py`) is not among the provided sources.  Per the spec's
tenant-scoped read interface and produced HTTP contract, it reads the
agent with a `select_one` keyed by the agent id and the tenant
partition column used by its sibling modular endpoints
(`clerk_org_id`) and fails with `NotFoundError` when no row matches. -/
def getAgentByOrg (s : List Row) (aid org : String) : Except ApiError Row :=
  match selectOne s (agentKeyFilter aid org) with
  | some row => .ok row
  | none => .error (.notFound "agent" aid)

/-! ## Voice creation, native clone path (`app/api/v1/voices.py` lines 26-1132)

`create_voice` with strategy `native`: clone in ElevenLabs (direct
`httpx` call, lines 651-698), then import into Ultravox (lines
884-1039), and only after both remote calls succeed insert the local
record with status `active` (lines 1068-1085).  No tentative local
record is ever written: a provider failure raises a `ProviderError`
with zero local writes. -/

/-- Outcome of one remote HTTP round trip, with the identifier already
extracted from the response body (the handlers tolerate several field
spellings): an HTTP response with status and optional id, a timeout, or
a transport error. -/
inductive RemoteCall where
  | resp (status : Nat) (extractedId : Option String)
  | timeoutErr
  | connErr
  deriving Repr, DecidableEq

/-- The `voice_record` dict built at lines 1071-1084 after both remote
calls succeed: status `active`, both remote ids set. -/
def voiceRecord (vid cid uid name elId uvId now : String) : Row :=
  [ ("id", some vid),
    ("client_id", some cid),
    ("user_id", some uid),
    ("name", some name),
    ("provider", some "elevenlabs"),
    ("type", some "custom"),
    ("language", some "en-US"),
    ("status", some "active"),
    ("provider_voice_id", some elId),
    ("ultravox_voice_id", some uvId),
    ("created_at", some now),
    ("updated_at", some now) ]

/-- Result of one run of the voice clone path: final `voices` table,
response or error, event trace. -/
structure VoiceCreateOut where
  voices : List Row
  resp : Except ApiError Row
  trace : List Ev
  deriving Repr, DecidableEq

/-- `create_voice`, strategy `native` (the clone path).  Parameters:
current store, tenant and user, role, request fields, generated UUID
`vid`, timestamp, and the outcomes of the two provider calls. -/
def createVoiceClone (s : List Row) (cid uid role name : String) (hasFiles : Bool)
    (vid now : String) (el uvi : RemoteCall) : VoiceCreateOut :=
  -- lines 58-59: role check
  if role != "client_admin" && role != "agency_admin" then
    ⟨s, .error (.forbidden "Insufficient permissions"), []⟩
  -- lines 403-404: name required
  else if name = "" then
    ⟨s, .error (.validation "Voice name is required"), []⟩
  -- lines 416-428: audio files required for the native strategy
  else if !hasFiles then
    ⟨s, .error (.validation "At least one audio file is required for voice cloning"), []⟩
  else
    -- lines 651-785: Step 1, ElevenLabs clone (no DB write before or after)
    match el with
    | .timeoutErr =>
        ⟨s, .error (.provider "elevenlabs" 504
            "ElevenLabs API request timed out after 120 seconds"), [.remoteCreate "elevenlabs"]⟩
    | .connErr =>
        ⟨s, .error (.provider "elevenlabs" 502 "Failed to connect to ElevenLabs API"),
          [.remoteCreate "elevenlabs"]⟩
    | .resp elStatus elId =>
      if elStatus ≥ 400 then
        -- lines 676-698: non-2xx ⇒ ProviderError with the provider status
        ⟨s, .error (.provider "elevenlabs" elStatus "ElevenLabs voice cloning failed"),
          [.remoteCreate "elevenlabs"]⟩
      else
        match elId with
        | none =>
            -- lines 722-739: 2xx lacking `voice_id` is itself a ProviderError
            ⟨s, .error (.provider "elevenlabs" 500 "ElevenLabs response missing voice_id"),
              [.remoteCreate "elevenlabs"]⟩
        | some elVoiceId =>
          -- lines 884-1009: Step 2, Ultravox import
          match uvi with
          | .timeoutErr =>
              ⟨s, .error (.provider "ultravox" 504
                  "Ultravox API request timed out after 120 seconds"),
                [.remoteCreate "elevenlabs", .remoteCreate "ultravox"]⟩
          | .connErr =>
              ⟨s, .error (.provider "ultravox" 502 "Failed to connect to Ultravox API"),
                [.remoteCreate "elevenlabs", .remoteCreate "ultravox"]⟩
          | .resp uvStatus uvId =>
            if uvStatus ≥ 400 then
              ⟨s, .error (.provider "ultravox" uvStatus "Ultravox import failed"),
                [.remoteCreate "elevenlabs", .remoteCreate "ultravox"]⟩
            else
              match uvId with
              | none =>
                  -- lines 1021-1039: 2xx lacking `voiceId` ⇒ ProviderError
                  ⟨s, .error (.provider "ultravox" 500 "Ultravox response missing voiceId"),
                    [.remoteCreate "elevenlabs", .remoteCreate "ultravox"]⟩
              | some uvVoiceId =>
                  -- lines 1068-1085: Step 3, the only DB write, status `active`
                  let rec0 := voiceRecord vid cid uid name elVoiceId uvVoiceId now
                  ⟨insertRow s rec0, .ok rec0,
                    [.remoteCreate "elevenlabs", .remoteCreate "ultravox",
                     .insertEv "voices" rec0]⟩

/-! ## Voice reads, update, delete (`app/api/v1/voices.py` lines 1414-1495)

`get_voice`, `update_voice` and `delete_voice` all look the voice up
through `db.get_voice(voice_id, client_id)`.  `DatabaseService` lives
in `app/core/database.py`, which is not among the provided sources; per
the spec's tenant-scoped persistence interface, `db.get_voice` is
modelled as a `select_one` keyed by the voice id and the tenant
column. -/

/-- Modelled from the spec: `DatabaseService.get_voice`
(`app/core/database.py`, absent from the sources) — a tenant-scoped
`select_one` on the `voices` table keyed by `(id, client_id)`. -/
def dbGetVoice (s : List Row) (vid cid : String) : Option Row :=
  selectOne s [("id", vid), ("client_id", cid)]

/-- `get_voice` (voices.py lines 1414-1432): tenant-scoped read,
`NotFoundError` when absent. -/
def getVoice (s : List Row) (vid cid : String) : Except ApiError Row :=
  match dbGetVoice s vid cid with
  | some row => .ok row
  | none => .error (.notFound "voice" vid)

/-- Result of one run of `update_voice` or `delete_voice`: final
`voices` table, response (the possibly re-fetched row, or the delete
acknowledgement), event trace. -/
structure VoiceMutationOut (α : Type) where
  voices : List Row
  resp : Except ApiError α
  trace : List Ev
  deriving Repr

/-- `update_voice` (voices.py lines 1435-1470): role check,
tenant-scoped existence read, then `db.update("voices",
{"id": voice_id}, update_data)` — the update filter map carries only
the id, not the tenant column.  Only `name` and `description` are
accepted from the body. -/
def updateVoice (s : List Row) (vid cid role : String)
    (newName newDescription : Option String) (now : String) :
    VoiceMutationOut (Option Row) :=
  if role != "client_admin" && role != "agency_admin" then
    ⟨s, .error (.forbidden "Insufficient permissions"), []⟩
  else
    match dbGetVoice s vid cid with
    | none => ⟨s, .error (.notFound "voice" vid),
        [.selectEv "voices" [("id", vid), ("client_id", cid)]]⟩
    | some voice =>
      let changes : Row :=
        (match newName with | some n => [("name", some n)] | none => []) ++
        (match newDescription with | some d => [("description", some d)] | none => [])
      if changes = [] then
        -- lines 1456-1460: nothing to change, return the row unchanged
        ⟨s, .ok (some voice), [.selectEv "voices" [("id", vid), ("client_id", cid)]]⟩
      else
        -- lines 1462-1465: update keyed by id only, then re-read
        let s2 := updateRows s [("id", vid)] (changes ++ [("updated_at", some now)])
        ⟨s2, .ok (dbGetVoice s2 vid cid),
          [.selectEv "voices" [("id", vid), ("client_id", cid)],
           .updateEv "voices" [("id", vid)],
           .selectEv "voices" [("id", vid), ("client_id", cid)]]⟩

/-- The `{id, deleted: true}` acknowledgement returned by the delete
endpoints. -/
structure DeleteAck where
  id : String
  deleted : Bool
  deriving Repr, DecidableEq

/-- `delete_voice` (voices.py lines 1473-1495): role check,
tenant-scoped existence read, then a tenant-scoped local hard delete.
No remote (Ultravox or ElevenLabs) delete is attempted, even when the
row carries an `ultravox_voice_id`. -/
def deleteVoice (s : List Row) (vid cid role : String) : VoiceMutationOut DeleteAck :=
  if role != "client_admin" && role != "agency_admin" then
    ⟨s, .error (.forbidden "Insufficient permissions"), []⟩
  else
    match dbGetVoice s vid cid with
    | none => ⟨s, .error (.notFound "voice" vid),
        [.selectEv "voices" [("id", vid), ("client_id", cid)]]⟩
    | some _ =>
        ⟨deleteRows s [("id", vid), ("client_id", cid)], .ok ⟨vid, true⟩,
          [.selectEv "voices" [("id", vid), ("client_id", cid)],
           .deleteEv "voices" [("id", vid), ("client_id", cid)]]⟩

/-! ## Legacy agent reads and delete (`app/api/v1/agents.py`)

The monolithic router partitions by `client_id`.  `get_agent` (lines
80-114) and `list_agents` (lines 51-77) are tenant-scoped reads;
`delete_agent` (lines 472-524) best-effort deletes the Ultravox mirror
first (failure is logged and does not block) and then hard-deletes the
local record, keyed by `(id, client_id)`. -/

/-- `get_agent` (agents.py lines 80-114): `select_one` keyed by
`(id, client_id)`, `NotFoundError` when absent. -/
def getAgent (s : List Row) (aid cid : String) : Except ApiError Row :=
  match selectOne s [("id", aid), ("client_id", cid)] with
  | some row => .ok row
  | none => .error (.notFound "agent" aid)

/-- `list_agents` (agents.py lines 51-77): all rows of the tenant. -/
def listAgents (s : List Row) (cid : String) : List Row :=
  selectRows s [("client_id", cid)]

/-- Result of one run of `delete_agent`. -/
structure AgentDeleteOut where
  agents : List Row
  resp : Except ApiError DeleteAck
  trace : List Ev
  deriving Repr

/-- `delete_agent` (agents.py lines 472-524).  `remoteOk` is the
outcome of `delete_agent_from_ultravox` (an `app/services/agent.py`
function absent from the sources); on failure the handler logs and
continues (lines 497-499), so the outcome does not change the local
effect. -/
def deleteAgent (s : List Row) (aid cid role : String) (remoteOk : Bool) : AgentDeleteOut :=
  if role != "client_admin" && role != "agency_admin" then
    ⟨s, .error (.forbidden "Insufficient permissions"), []⟩
  else
    match selectOne s [("id", aid), ("client_id", cid)] with
    | none => ⟨s, .error (.notFound "agent" aid),
        [.selectEv "agents" [("id", aid), ("client_id", cid)]]⟩
    | some row =>
      let preDelete : List Ev :=
        if truthy (getField row "ultravox_agent_id") then [.remoteDelete "ultravox"] else []
      ⟨deleteRows s [("id", aid), ("client_id", cid)], .ok ⟨aid, true⟩,
        [.selectEv "agents" [("id", aid), ("client_id", cid)]] ++ preDelete ++
        [.deleteEv "agents" [("id", aid), ("client_id", cid)]]⟩

/-! ## Idempotency store and the idempotent create wrapper

`check_idempotency_key` and `store_idempotency_response` live in
`app/core/idempotency.py`, which is not among the provided sources;
they are modelled from the spec (§3 IdempotencyRecord, §4.2).  The
modular create endpoint calls `check` before any side effect (create.py
lines 63-76) and `store` only after the operation fully succeeded
(lines 335-344), with status code 201. -/

/-- Modelled from the spec: an `IdempotencyRecord` of
`app/core/idempotency.py` (absent from the sources) — keyed by
`(tenant, key)`, storing a fingerprint of the request body (modelled by
the body itself, standing for its content hash), the serialized
response body and the status code. -/
structure IdemRecord where
  tenant : String
  key : String
  fingerprint : AgentInput
  responseBody : Row
  statusCode : Nat
  deriving Repr, DecidableEq

/-- The idempotency store. -/
abbrev IdemStore := List IdemRecord

/-- Outcome of the idempotency check. -/
inductive IdemCheck where
  | proceed
  | cached (statusCode : Nat) (body : Row)
  | conflict
  deriving Repr, DecidableEq

/-- Modelled from the spec: `check_idempotency_key` — absent key means
proceed; a present key replays the cached response verbatim when the
fingerprint matches and conflicts otherwise. -/
def checkIdem (is : IdemStore) (tenant key : String) (body : AgentInput) : IdemCheck :=
  match is.find? (fun r => r.tenant == tenant && r.key == key) with
  | none => .proceed
  | some r => if r.fingerprint = body then .cached r.statusCode r.responseBody else .conflict

/-- Modelled from the spec: `store_idempotency_response` — persist the
record once the orchestrated operation fully completed. -/
def storeIdem (is : IdemStore) (tenant key : String) (body : AgentInput)
    (resp : Row) (status : Nat) : IdemStore :=
  is ++ [⟨tenant, key, body, resp, status⟩]

/-- Result of one run of the idempotency-wrapped modular agent create:
final idempotency store, final `agents` table, response (status code
and body) or error, event trace. -/
structure AgentCreateIdemOut where
  idem : IdemStore
  agents : List Row
  resp : Except ApiError (Nat × Row)
  trace : List Ev
  deriving Repr

/-- `create_agent` of `app/api/v1/agents/create.py` with its
idempotency layer (lines 63-76 and 335-344) around `createAgent`.  A
cached replay returns the stored status and body with no side effect;
a fresh run stores its 201 response under the key on success only. -/
def createAgentWithIdem (is : IdemStore) (s : List Row) (org : String)
    (key : Option String) (inp : AgentInput) (aid now : String)
    (canSync : Bool) (valErrors : String) (uv : UvCreate) : AgentCreateIdemOut :=
  -- line 56: the org check precedes the idempotency check
  if org = "" then
    ⟨is, s, .error (.validation "Missing organization ID in token"), []⟩
  else
    let runFresh : AgentCreateIdemOut :=
      let out := createAgent s org inp aid now canSync valErrors uv
      match out.resp with
      | .ok row =>
          let is2 := match key with
            | some k => storeIdem is org k inp row 201
            | none => is
          ⟨is2, out.agents, .ok (201, row), out.trace⟩
      | .error e => ⟨is, out.agents, .error e, out.trace⟩
    match key with
    | none => runFresh
    | some k =>
      match checkIdem is org k inp with
      | .cached st body => ⟨is, s, .ok (st, body), []⟩
      | .conflict => ⟨is, s, .error .idemConflict, []⟩
      | .proceed => runFresh

/-! ## Theorems: tenant resolution -/

/-- A truthy optional string holds a non-empty value. -/
theorem truthy_getD_ne (o : Option String) (h : truthy o = true) : o.getD "" ≠ "" := by
  cases o with
  | none => simp [truthy] at h
  | some s =>
    simp only [truthy, Bool.not_eq_true'] at h
    simpa using (by simpa using h : s ≠ "")

/-- Characterization of `resolveTenant` on a truthy user id: the org
claim when truthy, else the user id; the explicit header never enters. -/
theorem resolveTenant_eq (c : Claims) (x : Option String) (h : truthy c.sub = true) :
    resolveTenant c x = .ok ((if truthy c.orgId then c.orgId else c.sub).getD "") := by
  by_cases ho : truthy c.orgId = true
  · simp [resolveTenant, effectiveOrgId, h, ho]
  · have ho2 : truthy c.orgId = false := by simpa using ho
    simp [resolveTenant, effectiveOrgId, h, ho2]

/-- Characterization of `resolveTenant` on a falsy user id. -/
theorem resolveTenant_err (c : Claims) (x : Option String) (h : truthy c.sub = false) :
    resolveTenant c x = .error (.unauthorized "Invalid token: missing user ID") := by
  simp [resolveTenant, h]

/-- **C6** (counterexample): the claim asserts strict precedence of the
explicit request value over the principal claim.  With the explicit
`x_client_id` header set to `org_A` and the token org claim `org_B`,
tenant resolution returns `org_B`: the explicit request value is
ignored (and no `TenantResolutionError` exists in the sources). -/
theorem claim_C6_counterexample :
    resolveTenant ⟨some "user_1", some "org_B"⟩ (some "org_A") = .ok "org_B" ∧
    resolveTenant ⟨some "user_1", some "org_B"⟩ (some "org_A") ≠ .ok "org_A" := by
  decide

/-- **C6** (amended): tenant resolution ignores the explicit request
value and any legacy alternate field; it returns exactly one non-empty
tenant id — the org claim when non-empty, else the user id claim,
untrimmed — and fails with `UnauthorizedError` (not
`TenantResolutionError`, which does not exist in the sources) when the
user id claim is empty or absent. -/
theorem claim_C6 (c : Claims) (x : Option String) :
    resolveTenant c x = resolveTenant c none ∧
    (truthy c.sub = false →
      resolveTenant c x = .error (.unauthorized "Invalid token: missing user ID")) ∧
    (truthy c.sub = true →
      resolveTenant c x = .ok ((if truthy c.orgId then c.orgId else c.sub).getD "") ∧
      ∀ t, resolveTenant c x = .ok t → t ≠ "") := by
  refine ⟨rfl, fun h => resolveTenant_err c x h, fun h => ⟨resolveTenant_eq c x h, ?_⟩⟩
  intro t ht
  rw [resolveTenant_eq c x h] at ht
  have hv : ((if truthy c.orgId then c.orgId else c.sub).getD "") = t := by
    injection ht
  subst hv
  by_cases ho : truthy c.orgId = true
  · rw [if_pos ho]; exact truthy_getD_ne _ ho
  · rw [if_neg ho]; exact truthy_getD_ne _ h

/-- **C6** witness: a concrete resolution through `claim_C6` — user
`user_1` in organization `org_1` resolves to `org_1`. -/
theorem claim_C6_witness :
    truthy (Claims.mk (some "user_1") (some "org_1")).sub = true ∧
    resolveTenant ⟨some "user_1", some "org_1"⟩ (some "hdr") =
      .ok ((if truthy (Claims.mk (some "user_1") (some "org_1")).orgId
            then (Claims.mk (some "user_1") (some "org_1")).orgId
            else (Claims.mk (some "user_1") (some "org_1")).sub).getD "") :=
  ⟨by decide, ((claim_C6 ⟨some "user_1", some "org_1"⟩ (some "hdr")).2.2 (by decide)).1⟩

/-- **C10**: an authenticated request whose verified token has no (or
an empty) `org_id` claim resolves its tenant partition key to the
token's user id, which is non-empty — each personal workspace is its
own per-user tenant partition. -/
theorem claim_C10 (c : Claims) (x : Option String)
    (hOrg : truthy c.orgId = false) (hSub : truthy c.sub = true) :
    resolveTenant c x = .ok (c.sub.getD "") ∧ c.sub.getD "" ≠ "" := by
  refine ⟨?_, truthy_getD_ne _ hSub⟩
  have h := resolveTenant_eq c x hSub
  rwa [if_neg (by simp [hOrg])] at h

/-- **C10** witness: a personal-workspace token (`sub = user_42`, no
`org_id`) resolves to tenant `user_42`. -/
theorem claim_C10_witness :
    resolveTenant ⟨some "user_42", none⟩ none = .ok ((some "user_42").getD "") ∧
    ((some "user_42").getD "" : String) ≠ "" :=
  claim_C10 ⟨some "user_42", none⟩ none (by decide) (by decide)

/-! ## Theorems: store lemmas -/

/-- Unfold `rowMatches` over the head of a filter map. -/
theorem rowMatches_cons (r : Row) (k v : String) (f : FilterMap) :
    rowMatches r ((k, v) :: f) = ((getField r k == some v) && rowMatches r f) := by
  simp [rowMatches]

/-- A row whose `id` differs never matches an id-keyed filter. -/
theorem rowMatches_false_of_id (r : Row) (aid : String) (f : FilterMap)
    (h : getField r "id" ≠ some aid) : rowMatches r (("id", aid) :: f) = false := by
  rw [rowMatches_cons]
  simp [h]

/-- `select` distributes over table concatenation. -/
theorem selectRows_append (s t : List Row) (f : FilterMap) :
    selectRows (s ++ t) f = selectRows s f ++ selectRows t f := by
  simp [selectRows]

/-- `update` distributes over table concatenation. -/
theorem updateRows_append (s t : List Row) (f : FilterMap) (c : Row) :
    updateRows (s ++ t) f c = updateRows s f c ++ updateRows t f c := by
  simp [updateRows]

/-- `update` leaves a table without matching rows unchanged. -/
theorem updateRows_no_match (s : List Row) (f : FilterMap) (c : Row)
    (h : ∀ r ∈ s, rowMatches r f = false) : updateRows s f c = s := by
  induction s with
  | nil => rfl
  | cons r rest ih =>
    have hr := h r (by simp)
    have hrest : ∀ r2 ∈ rest, rowMatches r2 f = false := fun r2 hm => h r2 (by simp [hm])
    have htail := ih hrest
    simp only [updateRows, List.map_cons] at htail ⊢
    simp [hr, htail]

/-- `select` returns nothing from a table without matching rows. -/
theorem selectRows_no_match (s : List Row) (f : FilterMap)
    (h : ∀ r ∈ s, rowMatches r f = false) : selectRows s f = [] := by
  induction s with
  | nil => rfl
  | cons r rest ih =>
    have hr := h r (by simp)
    have hrest : ∀ r2 ∈ rest, rowMatches r2 f = false := fun r2 hm => h r2 (by simp [hm])
    have htail := ih hrest
    simp only [selectRows, List.filter_cons] at htail ⊢
    simp [hr, htail]

/-- Reading back the field just set. -/
theorem getField_setField_same (r : Row) (k : String) (v : Option String) :
    getField (setField r k v) k = v := by
  simp [setField, getField]

/-- Dropping the entries of one other column does not change a lookup. -/
theorem getField_filter_ne (r : Row) (k k2 : String) (h : k2 ≠ k) :
    getField (r.filter fun p => !(p.fst == k)) k2 = getField r k2 := by
  induction r with
  | nil => simp
  | cons p rest ih =>
    by_cases hp : p.fst = k
    · have : (p.fst == k) = true := by simpa using hp
      simp [getField, this, hp]
      rw [if_neg (by simpa [hp] using h)]
      exact ih
    · have : (p.fst == k) = false := by simpa using hp
      by_cases h2 : k2 = p.fst
      · simp [getField, this, h2]
      · simp [getField, this, h2]
        exact ih

/-- Setting one column does not change a lookup of another. -/
theorem getField_setField_ne (r : Row) (k k2 : String) (v : Option String) (h : k2 ≠ k) :
    getField (setField r k v) k2 = getField r k2 := by
  simp [setField, getField, h]
  exact getField_filter_ne r k k2 h

/-! ## Theorems: agent create commit and degrade paths -/

/-- The freshly built agent record carries its id. -/
theorem agentRecord_id (aid org now : String) (inp : AgentInput) :
    getField (agentRecord aid org now inp) "id" = some aid := by
  simp [agentRecord, getField]

/-- The freshly built agent record carries its tenant partition key. -/
theorem agentRecord_org (aid org now : String) (inp : AgentInput) :
    getField (agentRecord aid org now inp) "clerk_org_id" = some org := by
  simp [agentRecord, getField]

/-- The freshly built agent record starts in status `creating`. -/
theorem agentRecord_status (aid org now : String) (inp : AgentInput) :
    getField (agentRecord aid org now inp) "status" = some "creating" := by
  simp [agentRecord, getField]

/-- The freshly built agent record has no remote reference id. -/
theorem agentRecord_uvid (aid org now : String) (inp : AgentInput) :
    getField (agentRecord aid org now inp) "ultravox_agent_id" = none := by
  simp [agentRecord, getField]

/-- After the commit changeset, the status is `active`. -/
theorem applyCommit_status (r : Row) (rid : String) :
    getField (applyChanges r [("ultravox_agent_id", some rid), ("status", some "active")])
      "status" = some "active" := by
  simp [applyChanges, getField_setField_same]

/-- After the commit changeset, the remote reference id is set. -/
theorem applyCommit_uvid (r : Row) (rid : String) :
    getField (applyChanges r [("ultravox_agent_id", some rid), ("status", some "active")])
      "ultravox_agent_id" = some rid := by
  simp only [applyChanges, List.foldl_cons, List.foldl_nil]
  rw [getField_setField_ne _ _ _ _ (by decide), getField_setField_same]

/-- The commit changeset touches neither `id` nor `clerk_org_id`. -/
theorem applyCommit_key (r : Row) (rid : String) (k : String)
    (h1 : k ≠ "status") (h2 : k ≠ "ultravox_agent_id") :
    getField (applyChanges r [("ultravox_agent_id", some rid), ("status", some "active")]) k =
      getField r k := by
  simp only [applyChanges, List.foldl_cons, List.foldl_nil]
  rw [getField_setField_ne _ _ _ _ h1, getField_setField_ne _ _ _ _ h2]

/-- After the degrade changeset, the status is `draft`. -/
theorem applyDraft_status (r : Row) :
    getField (applyChanges r [("status", some "draft")]) "status" = some "draft" := by
  simp [applyChanges, getField_setField_same]

/-- The degrade changeset touches only `status`. -/
theorem applyDraft_key (r : Row) (k : String) (h1 : k ≠ "status") :
    getField (applyChanges r [("status", some "draft")]) k = getField r k := by
  simp only [applyChanges, List.foldl_cons, List.foldl_nil]
  rw [getField_setField_ne _ _ _ _ h1]

/-- A row matches the `(id, clerk_org_id)` filter when it carries both
key values. -/
theorem rowMatches_agentKey (r : Row) (aid org : String)
    (h1 : getField r "id" = some aid) (h2 : getField r "clerk_org_id" = some org) :
    rowMatches r (agentKeyFilter aid org) = true := by
  simp [agentKeyFilter, rowMatches, h1, h2]

/-- `select_one` over a table whose old rows all miss the filter and
whose appended row matches returns the appended row. -/
theorem selectOne_fresh_append (s : List Row) (r : Row) (f : FilterMap)
    (hs : ∀ x ∈ s, rowMatches x f = false) (hr : rowMatches r f = true) :
    selectOne (s ++ [r]) f = some r := by
  unfold selectOne
  rw [selectRows_append, selectRows_no_match s f hs]
  simp [selectRows, hr]

/-- The row committed by a successful modular agent create: the
inserted record after the `{ultravox_agent_id, status: "active"}`
update. -/
def committedAgentRow (aid org now rid : String) (inp : AgentInput) : Row :=
  applyChanges (agentRecord aid org now inp)
    [("ultravox_agent_id", some rid), ("status", some "active")]

/-- The row left behind by a failed modular agent create: the inserted
record degraded to status `draft`. -/
def draftAgentRow (aid org now : String) (inp : AgentInput) : Row :=
  applyChanges (agentRecord aid org now inp) [("status", some "draft")]

/-- The committed row still matches the `(id, clerk_org_id)` filter. -/
theorem committedAgentRow_matches (aid org now rid : String) (inp : AgentInput) :
    rowMatches (committedAgentRow aid org now rid inp) (agentKeyFilter aid org) = true := by
  refine rowMatches_agentKey _ _ _ ?_ ?_
  · rw [committedAgentRow, applyCommit_key _ _ _ (by decide) (by decide), agentRecord_id]
  · rw [committedAgentRow, applyCommit_key _ _ _ (by decide) (by decide), agentRecord_org]

/-- The degraded row still matches the `(id, clerk_org_id)` filter. -/
theorem draftAgentRow_matches (aid org now : String) (inp : AgentInput) :
    rowMatches (draftAgentRow aid org now inp) (agentKeyFilter aid org) = true := by
  refine rowMatches_agentKey _ _ _ ?_ ?_
  · rw [draftAgentRow, applyDraft_key _ _ (by decide), agentRecord_id]
  · rw [draftAgentRow, applyDraft_key _ _ (by decide), agentRecord_org]

/-- Full evaluation of the modular agent create on the success path
over a store with no row for the fresh id. -/
theorem createAgent_success (s : List Row) (org : String) (inp : AgentInput)
    (aid now rid v : String)
    (hOrg : org ≠ "") (hFresh : ∀ r ∈ s, getField r "id" ≠ some aid) :
    createAgent s org inp aid now true v (.success (some rid)) =
      ⟨s ++ [committedAgentRow aid org now rid inp],
       .ok (committedAgentRow aid org now rid inp),
       [.insertEv "agents" (agentRecord aid org now inp), .remoteCreate "ultravox",
        .updateEv "agents" (agentKeyFilter aid org),
        .selectEv "agents" (agentKeyFilter aid org)]⟩ := by
  have hmatch : ∀ r ∈ s, rowMatches r (agentKeyFilter aid org) = false := fun r hm =>
    rowMatches_false_of_id r aid _ (hFresh r hm)
  have hrec : rowMatches (agentRecord aid org now inp) (agentKeyFilter aid org) = true :=
    rowMatches_agentKey _ _ _ (agentRecord_id aid org now inp) (agentRecord_org aid org now inp)
  have hupd : updateRows (insertRow s (agentRecord aid org now inp)) (agentKeyFilter aid org)
      [("ultravox_agent_id", some rid), ("status", some "active")] =
      s ++ [committedAgentRow aid org now rid inp] := by
    rw [insertRow, updateRows_append, updateRows_no_match s _ _ hmatch]
    simp [updateRows, hrec, committedAgentRow]
  have hsel : selectOne (s ++ [committedAgentRow aid org now rid inp])
      (agentKeyFilter aid org) = some (committedAgentRow aid org now rid inp) :=
    selectOne_fresh_append s _ _ hmatch (committedAgentRow_matches aid org now rid inp)
  simp only [createAgent, hOrg, Bool.not_true, Bool.false_eq_true, if_false, ite_false]
  rw [hupd, hsel]

/-- Full evaluation of the modular agent create on the remote-failure
path over a store with no row for the fresh id. -/
theorem createAgent_failure (s : List Row) (org : String) (inp : AgentInput)
    (aid now v : String) (e : ApiError)
    (hOrg : org ≠ "") (hFresh : ∀ r ∈ s, getField r "id" ≠ some aid) :
    createAgent s org inp aid now true v (.failure e) =
      ⟨s ++ [draftAgentRow aid org now inp],
       .error (if e.isProviderError then e
         else .provider "ultravox" 500 "Failed to create agent in Ultravox"),
       [.insertEv "agents" (agentRecord aid org now inp), .remoteCreate "ultravox",
        .updateEv "agents" (agentKeyFilter aid org)]⟩ := by
  have hmatch : ∀ r ∈ s, rowMatches r (agentKeyFilter aid org) = false := fun r hm =>
    rowMatches_false_of_id r aid _ (hFresh r hm)
  have hrec : rowMatches (agentRecord aid org now inp) (agentKeyFilter aid org) = true :=
    rowMatches_agentKey _ _ _ (agentRecord_id aid org now inp) (agentRecord_org aid org now inp)
  have hupd : updateRows (insertRow s (agentRecord aid org now inp)) (agentKeyFilter aid org)
      [("status", some "draft")] = s ++ [draftAgentRow aid org now inp] := by
    rw [insertRow, updateRows_append, updateRows_no_match s _ _ hmatch]
    simp [updateRows, hrec, draftAgentRow]
  simp only [createAgent, hOrg, Bool.not_true, Bool.false_eq_true, if_false, ite_false]
  rw [hupd]

/-- A row carrying the id matches the pure id filter. -/
theorem rowMatches_id (r : Row) (aid : String) (h : getField r "id" = some aid) :
    rowMatches r [("id", aid)] = true := by
  simp [rowMatches, h]

/-- `select` over a table whose old rows all miss the filter and whose
appended row matches returns exactly the appended row. -/
theorem selectRows_fresh_append (s : List Row) (r : Row) (f : FilterMap)
    (hs : ∀ x ∈ s, rowMatches x f = false) (hr : rowMatches r f = true) :
    selectRows (s ++ [r]) f = [r] := by
  rw [selectRows_append, selectRows_no_match s f hs]
  simp [selectRows, hr]

/-- The committed row carries its id. -/
theorem committedAgentRow_id (aid org now rid : String) (inp : AgentInput) :
    getField (committedAgentRow aid org now rid inp) "id" = some aid := by
  rw [committedAgentRow, applyCommit_key _ _ _ (by decide) (by decide), agentRecord_id]

/-- The degraded row carries its id. -/
theorem draftAgentRow_id (aid org now : String) (inp : AgentInput) :
    getField (draftAgentRow aid org now inp) "id" = some aid := by
  rw [draftAgentRow, applyDraft_key _ _ (by decide), agentRecord_id]

/-- The degraded row is in status `draft` with no remote reference id. -/
theorem draftAgentRow_fields (aid org now : String) (inp : AgentInput) :
    getField (draftAgentRow aid org now inp) "status" = some "draft" ∧
    getField (draftAgentRow aid org now inp) "ultravox_agent_id" = none := by
  constructor
  · exact applyDraft_status _
  · rw [draftAgentRow, applyDraft_key _ _ (by decide), agentRecord_uvid]

/-- **C1**: an eligible agent create whose Ultravox call succeeds with
a provider-assigned id commits the local record to status `active`
with `ultravox_agent_id` equal to the provider id, the store holds
exactly that record for the id, and a subsequent GET of the resource
returns the committed record. -/
theorem claim_C1 (s : List Row) (org : String) (inp : AgentInput) (aid now rid v : String)
    (hOrg : org ≠ "") (hFresh : ∀ r ∈ s, getField r "id" ≠ some aid) :
    ∃ row,
      (createAgent s org inp aid now true v (.success (some rid))).resp = .ok row ∧
      getField row "status" = some "active" ∧
      getField row "ultravox_agent_id" = some rid ∧
      selectRows (createAgent s org inp aid now true v (.success (some rid))).agents
        [("id", aid)] = [row] ∧
      getAgentByOrg (createAgent s org inp aid now true v (.success (some rid))).agents
        aid org = .ok row := by
  refine ⟨committedAgentRow aid org now rid inp, ?_, applyCommit_status _ _,
    applyCommit_uvid _ _, ?_, ?_⟩
  · rw [createAgent_success s org inp aid now rid v hOrg hFresh]
  · rw [createAgent_success s org inp aid now rid v hOrg hFresh]
    exact selectRows_fresh_append s _ _
      (fun r hm => rowMatches_false_of_id r aid _ (hFresh r hm))
      (rowMatches_id _ _ (committedAgentRow_id aid org now rid inp))
  · rw [createAgent_success s org inp aid now rid v hOrg hFresh]
    unfold getAgentByOrg
    have hsel : selectOne (s ++ [committedAgentRow aid org now rid inp])
        (agentKeyFilter aid org) = some (committedAgentRow aid org now rid inp) :=
      selectOne_fresh_append s _ _
        (fun r hm => rowMatches_false_of_id r aid _ (hFresh r hm))
        (committedAgentRow_matches aid org now rid inp)
    rw [hsel]

/-- **C1** witness: a concrete eligible create on an empty store with
provider id `uv_123`, through `claim_C1`. -/
theorem claim_C1_witness :
    ∃ row,
      (createAgent [] "org_1" ⟨"Agent one", none, "v1", "You help."⟩ "a1" "t0" true ""
        (.success (some "uv_123"))).resp = .ok row ∧
      getField row "status" = some "active" ∧
      getField row "ultravox_agent_id" = some "uv_123" ∧
      selectRows (createAgent [] "org_1" ⟨"Agent one", none, "v1", "You help."⟩ "a1" "t0"
        true "" (.success (some "uv_123"))).agents [("id", "a1")] = [row] ∧
      getAgentByOrg (createAgent [] "org_1" ⟨"Agent one", none, "v1", "You help."⟩ "a1" "t0"
        true "" (.success (some "uv_123"))).agents "a1" "org_1" = .ok row :=
  claim_C1 [] "org_1" ⟨"Agent one", none, "v1", "You help."⟩ "a1" "t0" "uv_123" ""
    (by decide) (by simp)

/-- **C2** (counterexample): a concrete agent create whose Ultravox
call fails with a `ProviderError` leaves the single remaining local
record in status `draft`, not `failed` as the claim states. -/
theorem claim_C2_counterexample :
    getField (draftAgentRow "a1" "org_1" "t0" ⟨"Agent one", none, "v1", "You help."⟩)
        "status" = some "draft" ∧
    selectRows (createAgent [] "org_1" ⟨"Agent one", none, "v1", "You help."⟩ "a1" "t0"
        true "" (.failure (.provider "ultravox" 500 "boom"))).agents [("id", "a1")] =
      [draftAgentRow "a1" "org_1" "t0" ⟨"Agent one", none, "v1", "You help."⟩] ∧
    getField (draftAgentRow "a1" "org_1" "t0" ⟨"Agent one", none, "v1", "You help."⟩)
        "status" ≠ some "failed" := by
  refine ⟨by decide, ?_, by decide⟩
  rw [createAgent_failure [] "org_1" _ "a1" "t0" "" _ (by decide) (by simp)]
  decide

/-- **C2** (amended): an agent create whose Ultravox call fails leaves
exactly one local record for the id, in status `draft` (the degrade
policy as implemented) with a null remote reference id, and a
`ProviderError` is surfaced to the caller — the original error itself
when the failure already was a `ProviderError`. -/
theorem claim_C2 (s : List Row) (org : String) (inp : AgentInput) (aid now v : String)
    (e : ApiError) (hOrg : org ≠ "") (hFresh : ∀ r ∈ s, getField r "id" ≠ some aid) :
    selectRows (createAgent s org inp aid now true v (.failure e)).agents [("id", aid)] =
      [draftAgentRow aid org now inp] ∧
    getField (draftAgentRow aid org now inp) "status" = some "draft" ∧
    getField (draftAgentRow aid org now inp) "ultravox_agent_id" = none ∧
    ∃ err, (createAgent s org inp aid now true v (.failure e)).resp = .error err ∧
      err.isProviderError = true ∧
      (e.isProviderError = true → err = e) := by
  have hpaths := createAgent_failure s org inp aid now v e hOrg hFresh
  refine ⟨?_, (draftAgentRow_fields aid org now inp).1,
    (draftAgentRow_fields aid org now inp).2, ?_⟩
  · rw [hpaths]
    exact selectRows_fresh_append s _ _
      (fun r hm => rowMatches_false_of_id r aid _ (hFresh r hm))
      (rowMatches_id _ _ (draftAgentRow_id aid org now inp))
  · refine ⟨if e.isProviderError then e
      else .provider "ultravox" 500 "Failed to create agent in Ultravox", ?_, ?_, ?_⟩
    · rw [hpaths]
    · by_cases he : e.isProviderError = true
      · rw [if_pos he]; exact he
      · rw [if_neg he]; rfl
    · intro he; rw [if_pos he]

/-- **C2** witness: a concrete failing create through `claim_C2`. -/
theorem claim_C2_witness :
    selectRows (createAgent [] "org_1" ⟨"Agent one", none, "v1", "You help."⟩ "a1" "t0"
        true "" (.failure (.provider "ultravox" 503 "down"))).agents [("id", "a1")] =
      [draftAgentRow "a1" "org_1" "t0" ⟨"Agent one", none, "v1", "You help."⟩] ∧
    getField (draftAgentRow "a1" "org_1" "t0" ⟨"Agent one", none, "v1", "You help."⟩)
        "status" = some "draft" ∧
    getField (draftAgentRow "a1" "org_1" "t0" ⟨"Agent one", none, "v1", "You help."⟩)
        "ultravox_agent_id" = none ∧
    ∃ err, (createAgent [] "org_1" ⟨"Agent one", none, "v1", "You help."⟩ "a1" "t0"
        true "" (.failure (.provider "ultravox" 503 "down"))).resp = .error err ∧
      err.isProviderError = true ∧
      ((ApiError.provider "ultravox" 503 "down").isProviderError = true → err = .provider "ultravox" 503 "down") :=
  claim_C2 [] "org_1" ⟨"Agent one", none, "v1", "You help."⟩ "a1" "t0" ""
    (.provider "ultravox" 503 "down") (by decide) (by simp)

/-- **C4** (counterexample): a concrete agent create that fails the
eligibility check persists nothing (the store stays empty — no `draft`
record) and raises a `ValidationError`, contradicting the claimed
"persist as draft, not an error" terminal state. -/
theorem claim_C4_counterexample :
    (createAgent [] "org_1" ⟨"Agent one", none, "", "You help."⟩ "a1" "t0" false
        "voice_id is required" (.success none)).agents = [] ∧
    (createAgent [] "org_1" ⟨"Agent one", none, "", "You help."⟩ "a1" "t0" false
        "voice_id is required" (.success none)).resp =
      .error (.validation "Agent validation failed: voice_id is required") := by
  constructor <;> rfl

/-- **C4** (amended): an agent create that fails the eligibility check
(`can_sync` false, e.g. for a missing required voice reference) stops
before the remote call with a `ValidationError`; no local record is
persisted, no store or remote operation is issued, and in particular no
`ProviderError` is raised. -/
theorem claim_C4 (s : List Row) (org : String) (inp : AgentInput) (aid now v : String)
    (uv : UvCreate) (hOrg : org ≠ "") :
    createAgent s org inp aid now false v uv =
      ⟨s, .error (.validation ("Agent validation failed: " ++ v)), []⟩ := by
  simp [createAgent, hOrg]

/-- **C4** witness: a concrete ineligible create through `claim_C4`. -/
theorem claim_C4_witness :
    createAgent [] "org_1" ⟨"Agent one", none, "", "You help."⟩ "a1" "t0" false
        "voice_id is required" (.success none) =
      ⟨[], .error (.validation ("Agent validation failed: " ++ "voice_id is required")), []⟩ :=
  claim_C4 [] "org_1" ⟨"Agent one", none, "", "You help."⟩ "a1" "t0"
    "voice_id is required" (.success none) (by decide)

/-- **C7** (counterexample): a concrete successful voice clone issues
its ElevenLabs remote call as its very first operation — no local
record with status `creating`/`draft` is persisted before the remote
call. -/
theorem claim_C7_counterexample :
    insertBeforeRemote (createVoiceClone [] "c1" "u1" "client_admin" "My voice" true "v1" "t0"
        (.resp 200 (some "el_1")) (.resp 200 (some "uv_1"))).trace false = false := by
  rfl

/-- **C7** (amended): the modular agent create persists the local
record with status `creating` strictly before its remote call, on
every path; the voice clone path instead calls both providers first
and issues its only insert — already in status `active` — after both
remote calls succeed. -/
theorem claim_C7 :
    (∀ (s : List Row) (org : String) (inp : AgentInput) (aid now : String)
        (canSync : Bool) (v : String) (uv : UvCreate),
      insertBeforeRemote (createAgent s org inp aid now canSync v uv).trace false = true) ∧
    (∀ (s : List Row) (cid uid name vid now elId uvId : String),
      name ≠ "" →
      (createVoiceClone s cid uid "client_admin" name true vid now
          (.resp 200 (some elId)) (.resp 200 (some uvId))).trace =
        [.remoteCreate "elevenlabs", .remoteCreate "ultravox",
         .insertEv "voices" (voiceRecord vid cid uid name elId uvId now)] ∧
      getField (voiceRecord vid cid uid name elId uvId now) "status" = some "active" ∧
      insertBeforeRemote (createVoiceClone s cid uid "client_admin" name true vid now
          (.resp 200 (some elId)) (.resp 200 (some uvId))).trace false = false) := by
  constructor
  · intro s org inp aid now canSync v uv
    by_cases hOrg : org = ""
    · simp [createAgent, hOrg, insertBeforeRemote]
    · cases canSync with
      | false => simp [createAgent, hOrg, insertBeforeRemote]
      | true =>
        cases uv with
        | success oid =>
          cases oid with
          | none => simp [createAgent, hOrg, insertBeforeRemote, agentRecord_status]
          | some rid =>
            simp only [createAgent, hOrg, Bool.not_true, Bool.false_eq_true, if_false,
              ite_false]
            split <;> simp [insertBeforeRemote, agentRecord_status]
        | failure e => simp [createAgent, hOrg, insertBeforeRemote, agentRecord_status]
  · intro s cid uid name vid now elId uvId hname
    have hrole : (("client_admin" != "client_admin") && ("client_admin" != "agency_admin")) = false := by
      decide
    refine ⟨?_, ?_, ?_⟩
    · simp [createVoiceClone, hname]
    · simp [voiceRecord, getField]
    · simp [createVoiceClone, hname, insertBeforeRemote]

/-- **C7** witness: a concrete agent create (insert before the remote
call) and a concrete voice clone trace (remote calls first), both
through `claim_C7`. -/
theorem claim_C7_witness :
    insertBeforeRemote (createAgent [] "org_1" ⟨"Agent one", none, "v1", "You help."⟩ "a1"
        "t0" true "" (.success (some "uv_9"))).trace false = true ∧
    (createVoiceClone [] "c1" "u1" "client_admin" "Voice nine" true "v9" "t0"
        (.resp 200 (some "el_9")) (.resp 200 (some "uv_9"))).trace =
      [.remoteCreate "elevenlabs", .remoteCreate "ultravox",
       .insertEv "voices" (voiceRecord "v9" "c1" "u1" "Voice nine" "el_9" "uv_9" "t0")] :=
  ⟨claim_C7.1 [] "org_1" ⟨"Agent one", none, "v1", "You help."⟩ "a1" "t0" true ""
      (.success (some "uv_9")),
   (claim_C7.2 [] "c1" "u1" "Voice nine" "v9" "t0" "el_9" "uv_9" (by decide)).1⟩

/-! ## Theorems: voice rollback, tenant isolation, deletes -/

/-- A `select_one` hit satisfies the filter. -/
theorem selectOne_matches (s : List Row) (f : FilterMap) (r : Row)
    (h : selectOne s f = some r) : rowMatches r f = true := by
  unfold selectOne at h
  have hmem : r ∈ selectRows s f := List.mem_of_mem_head? (by simp [h])
  exact (List.mem_filter.mp hmem).2

/-- A matching row carries every filter-map value. -/
theorem matches_field (r : Row) (f : FilterMap) (k v : String)
    (hm : rowMatches r f = true) (hmem : (k, v) ∈ f) : getField r k = some v := by
  unfold rowMatches at hm
  have := List.all_eq_true.mp hm (k, v) hmem
  simpa using this

/-- **C3**: a voice create (clone path) whose ElevenLabs call fails
with an HTTP error status (e.g. 500) surfaces a `ProviderError`,
leaves the store unchanged with zero local records for the voice id,
and a subsequent GET of that voice id fails with `NotFoundError`. -/
theorem claim_C3 (s : List Row) (cid uid name vid now : String) (elStatus : Nat)
    (elId : Option String) (uvi : RemoteCall)
    (hst : 400 ≤ elStatus) (hname : name ≠ "")
    (hFresh : ∀ r ∈ s, getField r "id" ≠ some vid) :
    (createVoiceClone s cid uid "client_admin" name true vid now
        (.resp elStatus elId) uvi).voices = s ∧
    (createVoiceClone s cid uid "client_admin" name true vid now
        (.resp elStatus elId) uvi).resp =
      .error (.provider "elevenlabs" elStatus "ElevenLabs voice cloning failed") ∧
    selectRows (createVoiceClone s cid uid "client_admin" name true vid now
        (.resp elStatus elId) uvi).voices [("id", vid)] = [] ∧
    getVoice (createVoiceClone s cid uid "client_admin" name true vid now
        (.resp elStatus elId) uvi).voices vid cid = .error (.notFound "voice" vid) := by
  have hrun : createVoiceClone s cid uid "client_admin" name true vid now
      (.resp elStatus elId) uvi =
      ⟨s, .error (.provider "elevenlabs" elStatus "ElevenLabs voice cloning failed"),
       [.remoteCreate "elevenlabs"]⟩ := by
    simp [createVoiceClone, hname, hst]
  have hnone : ∀ r ∈ s, rowMatches r [("id", vid)] = false := fun r hm =>
    rowMatches_false_of_id r vid [] (hFresh r hm)
  have hnone2 : ∀ r ∈ s, rowMatches r [("id", vid), ("client_id", cid)] = false := fun r hm =>
    rowMatches_false_of_id r vid _ (hFresh r hm)
  refine ⟨by rw [hrun], by rw [hrun], ?_, ?_⟩
  · rw [hrun]
    exact selectRows_no_match s _ hnone
  · rw [hrun]
    unfold getVoice dbGetVoice
    rw [show selectOne s [("id", vid), ("client_id", cid)] = none from ?_]
    unfold selectOne
    rw [selectRows_no_match s _ hnone2]
    rfl

/-- **C3** witness: a concrete ElevenLabs 500 on an empty store,
through `claim_C3`. -/
theorem claim_C3_witness :
    (createVoiceClone [] "c1" "u1" "client_admin" "My voice" true "v1" "t0"
        (.resp 500 none) (.resp 200 (some "uv_1"))).voices = [] ∧
    (createVoiceClone [] "c1" "u1" "client_admin" "My voice" true "v1" "t0"
        (.resp 500 none) (.resp 200 (some "uv_1"))).resp =
      .error (.provider "elevenlabs" 500 "ElevenLabs voice cloning failed") ∧
    selectRows (createVoiceClone [] "c1" "u1" "client_admin" "My voice" true "v1" "t0"
        (.resp 500 none) (.resp 200 (some "uv_1"))).voices [("id", "v1")] = [] ∧
    getVoice (createVoiceClone [] "c1" "u1" "client_admin" "My voice" true "v1" "t0"
        (.resp 500 none) (.resp 200 (some "uv_1"))).voices "v1" "c1" =
      .error (.notFound "voice" "v1") :=
  claim_C3 [] "c1" "u1" "My voice" "v1" "t0" 500 none (.resp 200 (some "uv_1"))
    (by decide) (by decide) (by simp)

/-- **C5** (counterexample): the `update_voice` endpoint issues a
local-store update whose filter map is `{"id": voice_id}` only — the
tenant partition column is missing from its filter map, contradicting
"every local-store select/update/delete ... includes the tenant
partition column". -/
theorem claim_C5_counterexample :
    Ev.updateEv "voices" [("id", "v1")] ∈
      (updateVoice [voiceRecord "v1" "c1" "u1" "Old name" "el_1" "uv_1" "t0"] "v1" "c1"
        "client_admin" (some "New name") none "t1").trace ∧
    "client_id" ∉ filterKeys [("id", "v1")] := by
  decide

/-- **C5** (amended): reads are tenant-isolated — an agent or voice row
returned by a read scoped to tenant B always carries tenant B, never a
different tenant A, and every row listed for B carries B — and the
selects and deletes of the cited endpoints are keyed by the tenant
column; but the `update_voice` update call filters by `{"id"}` alone,
without the tenant partition column (it relies on the preceding
tenant-scoped existence read). -/
theorem claim_C5 :
    (∀ (s : List Row) (aid A B : String) (row : Row), A ≠ B →
      getAgent s aid B = .ok row →
      getField row "client_id" = some B ∧ getField row "client_id" ≠ some A) ∧
    (∀ (s : List Row) (vid A B : String) (row : Row), A ≠ B →
      getVoice s vid B = .ok row →
      getField row "client_id" = some B ∧ getField row "client_id" ≠ some A) ∧
    (∀ (s : List Row) (B : String) (row : Row), row ∈ listAgents s B →
      getField row "client_id" = some B) ∧
    (∀ (s : List Row) (vid cid role : String) (nn nd : Option String) (now : String)
        (f : FilterMap),
      Ev.updateEv "voices" f ∈ (updateVoice s vid cid role nn nd now).trace →
      filterKeys f = ["id"] ∧ "client_id" ∉ filterKeys f) := by
  refine ⟨?_, ?_, ?_, ?_⟩
  · intro s aid A B row hAB hget
    unfold getAgent at hget
    cases hsel : selectOne s [("id", aid), ("client_id", B)] with
    | none => rw [hsel] at hget; cases hget
    | some r =>
      rw [hsel] at hget
      have hr : r = row := by simpa using hget
      subst hr
      have hm := selectOne_matches s _ r hsel
      have hcid := matches_field r _ "client_id" B hm (by simp)
      exact ⟨hcid, by rw [hcid]; simpa using fun h => hAB h.symm⟩
  · intro s vid A B row hAB hget
    unfold getVoice dbGetVoice at hget
    cases hsel : selectOne s [("id", vid), ("client_id", B)] with
    | none => rw [hsel] at hget; cases hget
    | some r =>
      rw [hsel] at hget
      have hr : r = row := by simpa using hget
      subst hr
      have hm := selectOne_matches s _ r hsel
      have hcid := matches_field r _ "client_id" B hm (by simp)
      exact ⟨hcid, by rw [hcid]; simpa using fun h => hAB h.symm⟩
  · intro s B row hmem
    unfold listAgents at hmem
    have hm := (List.mem_filter.mp hmem).2
    exact matches_field row _ "client_id" B (by simpa using hm) (by simp)
  · intro s vid cid role nn nd now f hmem
    unfold updateVoice at hmem
    split at hmem
    · simp at hmem
    · split at hmem
      · simp at hmem
      · rcases nn with _ | n <;> rcases nd with _ | d <;> simp at hmem <;>
          (subst hmem; exact ⟨rfl, by simp [filterKeys]⟩)

/-- **C5** witness: a concrete tenant-B agent read through `claim_C5`
— the returned row carries tenant B and not tenant A. -/
theorem claim_C5_witness :
    getField [("id", some "a1"), ("client_id", some "tenant_B")] "client_id" = some "tenant_B" ∧
    getField [("id", some "a1"), ("client_id", some "tenant_B")] "client_id" ≠ some "tenant_A" :=
  claim_C5.1 [[("id", some "a1"), ("client_id", some "tenant_B")]] "a1" "tenant_A" "tenant_B"
    [("id", some "a1"), ("client_id", some "tenant_B")] (by decide) (by decide)

/-- After a tenant-scoped hard delete, no row matches the same filter. -/
theorem selectRows_deleteRows (s : List Row) (f : FilterMap) :
    selectRows (deleteRows s f) f = [] := by
  apply selectRows_no_match
  intro r hr
  have := (List.mem_filter.mp hr).2
  simpa using this

/-- **C8** (counterexample): deleting a voice that holds a remote
reference id (`ultravox_voice_id`) never attempts the remote mirror
delete — the trace holds only the tenant-scoped local read and local
hard delete, contradicting "the remote mirror delete is attempted
first". -/
theorem claim_C8_counterexample :
    getField (voiceRecord "v1" "c1" "u1" "My voice" "el_1" "uv_1" "t0") "ultravox_voice_id" =
      some "uv_1" ∧
    (deleteVoice [voiceRecord "v1" "c1" "u1" "My voice" "el_1" "uv_1" "t0"] "v1" "c1"
        "client_admin").trace =
      [.selectEv "voices" [("id", "v1"), ("client_id", "c1")],
       .deleteEv "voices" [("id", "v1"), ("client_id", "c1")]] := by
  decide

/-- **C8** (amended): deleting an agent that holds a remote reference
id attempts the Ultravox delete first, a remote failure does not block
(the local outcome is the same for either remote outcome), the local
record is hard-deleted scoped by tenant id, and the response is
`{id, deleted: true}`; deleting a voice skips the remote mirror
entirely and only hard-deletes the local record scoped by tenant id
with the same response. -/
theorem claim_C8 :
    (∀ (s : List Row) (aid cid : String) (remoteOk : Bool) (row : Row),
      selectOne s [("id", aid), ("client_id", cid)] = some row →
      truthy (getField row "ultravox_agent_id") = true →
      (deleteAgent s aid cid "client_admin" remoteOk).resp = .ok ⟨aid, true⟩ ∧
      (deleteAgent s aid cid "client_admin" remoteOk).trace =
        [.selectEv "agents" [("id", aid), ("client_id", cid)], .remoteDelete "ultravox",
         .deleteEv "agents" [("id", aid), ("client_id", cid)]] ∧
      selectRows (deleteAgent s aid cid "client_admin" remoteOk).agents
        [("id", aid), ("client_id", cid)] = []) ∧
    (∀ (s : List Row) (vid cid : String) (row : Row),
      dbGetVoice s vid cid = some row →
      (deleteVoice s vid cid "client_admin").resp = .ok ⟨vid, true⟩ ∧
      (∀ p, Ev.remoteDelete p ∉ (deleteVoice s vid cid "client_admin").trace) ∧
      selectRows (deleteVoice s vid cid "client_admin").voices
        [("id", vid), ("client_id", cid)] = []) := by
  constructor
  · intro s aid cid remoteOk row hsel htr
    have hrun : deleteAgent s aid cid "client_admin" remoteOk =
        ⟨deleteRows s [("id", aid), ("client_id", cid)], .ok ⟨aid, true⟩,
         [.selectEv "agents" [("id", aid), ("client_id", cid)], .remoteDelete "ultravox",
          .deleteEv "agents" [("id", aid), ("client_id", cid)]]⟩ := by
      unfold deleteAgent
      rw [if_neg (by decide)]
      rw [hsel]
      simp [htr]
    exact ⟨by rw [hrun], by rw [hrun], by rw [hrun]; exact selectRows_deleteRows s _⟩
  · intro s vid cid row hget
    have hrun : deleteVoice s vid cid "client_admin" =
        ⟨deleteRows s [("id", vid), ("client_id", cid)], .ok ⟨vid, true⟩,
         [.selectEv "voices" [("id", vid), ("client_id", cid)],
          .deleteEv "voices" [("id", vid), ("client_id", cid)]]⟩ := by
      unfold deleteVoice
      rw [if_neg (by decide)]
      rw [hget]
    refine ⟨by rw [hrun], ?_, by rw [hrun]; exact selectRows_deleteRows s _⟩
    intro p
    rw [hrun]
    simp

/-- **C8** witness: a concrete agent delete with a failing remote
delete and a concrete voice delete, both through `claim_C8`. -/
theorem claim_C8_witness :
    ((deleteAgent [[("id", some "a1"), ("client_id", some "c1"),
        ("ultravox_agent_id", some "uv_1")]] "a1" "c1" "client_admin" false).resp =
      .ok ⟨"a1", true⟩ ∧
    (deleteAgent [[("id", some "a1"), ("client_id", some "c1"),
        ("ultravox_agent_id", some "uv_1")]] "a1" "c1" "client_admin" false).trace =
      [.selectEv "agents" [("id", "a1"), ("client_id", "c1")], .remoteDelete "ultravox",
       .deleteEv "agents" [("id", "a1"), ("client_id", "c1")]] ∧
    selectRows (deleteAgent [[("id", some "a1"), ("client_id", some "c1"),
        ("ultravox_agent_id", some "uv_1")]] "a1" "c1" "client_admin" false).agents
      [("id", "a1"), ("client_id", "c1")] = []) ∧
    (deleteVoice [voiceRecord "v1" "c1" "u1" "My voice" "el_1" "uv_1" "t0"] "v1" "c1"
        "client_admin").resp = .ok ⟨"v1", true⟩ :=
  ⟨claim_C8.1 [[("id", some "a1"), ("client_id", some "c1"),
      ("ultravox_agent_id", some "uv_1")]] "a1" "c1" false
      [("id", some "a1"), ("client_id", some "c1"), ("ultravox_agent_id", some "uv_1")]
      (by decide) (by decide),
   (claim_C8.2 [voiceRecord "v1" "c1" "u1" "My voice" "el_1" "uv_1" "t0"] "v1" "c1"
      (voiceRecord "v1" "c1" "u1" "My voice" "el_1" "uv_1" "t0") (by decide)).1⟩

/-! ## Theorems: idempotent replay -/

/-- A proceeding idempotency check means no record sits under the key. -/
theorem checkIdem_proceed_find (is : IdemStore) (org k : String) (inp : AgentInput)
    (h : checkIdem is org k inp = .proceed) :
    List.find? (fun r => r.tenant == org && r.key == k) is = none := by
  unfold checkIdem at h
  cases hf : List.find? (fun r => r.tenant == org && r.key == k) is with
  | none => rfl
  | some r =>
    rw [hf] at h
    by_cases hfp : r.fingerprint = inp <;> simp [hfp] at h

/-- After storing the response under a previously free key, the check
replays exactly the stored status and body. -/
theorem checkIdem_after_store (is : IdemStore) (org k : String) (inp : AgentInput)
    (row : Row) (st : Nat) (h : checkIdem is org k inp = .proceed) :
    checkIdem (storeIdem is org k inp row st) org k inp = .cached st row := by
  have hf := checkIdem_proceed_find is org k inp h
  unfold checkIdem storeIdem
  rw [List.find?_append, hf]
  simp

/-- Evaluation of the idempotency-wrapped create: fresh key, eligible
request, successful remote call. -/
theorem createAgentWithIdem_fresh (is : IdemStore) (s : List Row) (org k : String)
    (inp : AgentInput) (aid now rid v : String)
    (hOrg : org ≠ "") (hFresh : ∀ r ∈ s, getField r "id" ≠ some aid)
    (hNoPrior : checkIdem is org k inp = .proceed) :
    createAgentWithIdem is s org (some k) inp aid now true v (.success (some rid)) =
      ⟨storeIdem is org k inp (committedAgentRow aid org now rid inp) 201,
       s ++ [committedAgentRow aid org now rid inp],
       .ok (201, committedAgentRow aid org now rid inp),
       [.insertEv "agents" (agentRecord aid org now inp), .remoteCreate "ultravox",
        .updateEv "agents" (agentKeyFilter aid org),
        .selectEv "agents" (agentKeyFilter aid org)]⟩ := by
  unfold createAgentWithIdem
  rw [if_neg hOrg]
  simp only [hNoPrior, createAgent_success s org inp aid now rid v hOrg hFresh]

/-- Evaluation of the idempotency-wrapped create on a cached key: the
stored response is replayed verbatim with no side effect. -/
theorem createAgentWithIdem_replay (is : IdemStore) (s : List Row) (org k : String)
    (inp : AgentInput) (aid now v : String) (canSync : Bool) (uv : UvCreate)
    (st : Nat) (body : Row)
    (hOrg : org ≠ "") (hc : checkIdem is org k inp = .cached st body) :
    createAgentWithIdem is s org (some k) inp aid now canSync v uv =
      ⟨is, s, .ok (st, body), []⟩ := by
  unfold createAgentWithIdem
  rw [if_neg hOrg]
  simp only [hc]


/-- Evaluation of the idempotency-wrapped create: fresh key, eligible
request, failing remote call.  The error propagates before the
response-store step (create.py lines 335-344 are unreachable), so the
idempotency store is left unchanged — nothing is cached. -/
theorem createAgentWithIdem_fresh_failure (is : IdemStore) (s : List Row) (org k : String)
    (inp : AgentInput) (aid now v : String) (e : ApiError)
    (hOrg : org ≠ "") (hFresh : ∀ r ∈ s, getField r "id" ≠ some aid)
    (hNoPrior : checkIdem is org k inp = .proceed) :
    createAgentWithIdem is s org (some k) inp aid now true v (.failure e) =
      ⟨is, s ++ [draftAgentRow aid org now inp],
       .error (if e.isProviderError then e
         else .provider "ultravox" 500 "Failed to create agent in Ultravox"),
       [.insertEv "agents" (agentRecord aid org now inp), .remoteCreate "ultravox",
        .updateEv "agents" (agentKeyFilter aid org)]⟩ := by
  unfold createAgentWithIdem
  rw [if_neg hOrg]
  simp only [hNoPrior, createAgent_failure s org inp aid now v e hOrg hFresh]

/-- One keyed create request followed by an identical replay (same
tenant, key and body; the replay draws a fresh UUID and timestamp),
both runs seeing the same Ultravox outcome. -/
def idemReplayRuns (is : IdemStore) (s : List Row) (org k : String) (inp : AgentInput)
    (aid now aid2 now2 v : String) (uv : UvCreate) :
    AgentCreateIdemOut × AgentCreateIdemOut :=
  let out1 := createAgentWithIdem is s org (some k) inp aid now true v uv
  (out1, createAgentWithIdem out1.idem out1.agents org (some k) inp aid2 now2 true v uv)

/-- **C9** (counterexample): a concrete keyed create whose Ultravox
call fails caches nothing (the response store runs only after
success), so the identical replay re-executes the remote create call
— a side effect — and two local draft records exist across the two
requests, not one. -/
theorem claim_C9_counterexample :
    Ev.remoteCreate "ultravox" ∈
      (idemReplayRuns [] [] "org_1" "key_1" ⟨"Agent one", none, "v1", "You help."⟩
        "a1" "t0" "a2" "t1" "" (.failure (.provider "ultravox" 503 "down"))).2.trace ∧
    ((idemReplayRuns [] [] "org_1" "key_1" ⟨"Agent one", none, "v1", "You help."⟩
        "a1" "t0" "a2" "t1" "" (.failure (.provider "ultravox" 503 "down"))).2.agents).length
      = 2 := by
  decide

/-- **C9** (amended): for an eligible keyed create whose orchestrated
operation succeeds, replaying the identical request (same tenant, key
and body, even with a fresh UUID and timestamp) yields the identical
status code and body, with no side effect on the replay (empty trace,
unchanged stores), and exactly one local record exists across both
requests.  When the first execution fails, nothing is cached (the
idempotency store is unchanged): the identical replay re-executes the
operation including the remote provider call, and each failed run
leaves its own degraded `draft` record — two records across the two
requests. -/
theorem claim_C9 (is : IdemStore) (s : List Row) (org k : String) (inp : AgentInput)
    (aid now aid2 now2 rid v : String) (e : ApiError)
    (hOrg : org ≠ "") (hFresh : ∀ r ∈ s, getField r "id" ≠ some aid)
    (hFresh2 : ∀ r ∈ s, getField r "id" ≠ some aid2) (hNe : aid2 ≠ aid)
    (hNoPrior : checkIdem is org k inp = .proceed) :
    ((idemReplayRuns is s org k inp aid now aid2 now2 v (.success (some rid))).2.resp =
        (idemReplayRuns is s org k inp aid now aid2 now2 v (.success (some rid))).1.resp ∧
      (idemReplayRuns is s org k inp aid now aid2 now2 v (.success (some rid))).2.agents =
        (idemReplayRuns is s org k inp aid now aid2 now2 v (.success (some rid))).1.agents ∧
      (idemReplayRuns is s org k inp aid now aid2 now2 v (.success (some rid))).2.trace = [] ∧
      (idemReplayRuns is s org k inp aid now aid2 now2 v (.success (some rid))).1.resp =
        .ok (201, committedAgentRow aid org now rid inp) ∧
      selectRows (idemReplayRuns is s org k inp aid now aid2 now2 v
          (.success (some rid))).2.agents [("id", aid)] =
        [committedAgentRow aid org now rid inp]) ∧
    ((idemReplayRuns is s org k inp aid now aid2 now2 v (.failure e)).1.idem = is ∧
      Ev.remoteCreate "ultravox" ∈
        (idemReplayRuns is s org k inp aid now aid2 now2 v (.failure e)).2.trace ∧
      selectRows (idemReplayRuns is s org k inp aid now aid2 now2 v
          (.failure e)).2.agents [("id", aid)] = [draftAgentRow aid org now inp] ∧
      selectRows (idemReplayRuns is s org k inp aid now aid2 now2 v
          (.failure e)).2.agents [("id", aid2)] = [draftAgentRow aid2 org now2 inp]) := by
  constructor
  · have h1 := createAgentWithIdem_fresh is s org k inp aid now rid v hOrg hFresh hNoPrior
    have hcache := checkIdem_after_store is org k inp
      (committedAgentRow aid org now rid inp) 201 hNoPrior
    have h2 := createAgentWithIdem_replay
      (storeIdem is org k inp (committedAgentRow aid org now rid inp) 201)
      (s ++ [committedAgentRow aid org now rid inp]) org k inp aid2 now2 v true
      (.success (some rid)) 201 (committedAgentRow aid org now rid inp) hOrg hcache
    simp only [idemReplayRuns]
    rw [h1, h2]
    refine ⟨rfl, rfl, rfl, rfl, ?_⟩
    exact selectRows_fresh_append s _ _
      (fun r hm => rowMatches_false_of_id r aid _ (hFresh r hm))
      (rowMatches_id _ _ (committedAgentRow_id aid org now rid inp))
  · have h1 := createAgentWithIdem_fresh_failure is s org k inp aid now v e hOrg hFresh
      hNoPrior
    have hFreshs1 : ∀ r ∈ s ++ [draftAgentRow aid org now inp],
        getField r "id" ≠ some aid2 := by
      intro r hr
      rcases List.mem_append.mp hr with h | h
      · exact hFresh2 r h
      · have hd : r = draftAgentRow aid org now inp := by simpa using h
        rw [hd, draftAgentRow_id]
        exact fun hh => (Ne.symm hNe) (Option.some.inj hh)
    have h2 := createAgentWithIdem_fresh_failure is (s ++ [draftAgentRow aid org now inp])
      org k inp aid2 now2 v e hOrg hFreshs1 hNoPrior
    simp only [idemReplayRuns]
    rw [h1, h2]
    refine ⟨rfl, by simp, ?_, ?_⟩
    · rw [selectRows_append]
      rw [selectRows_fresh_append s _ _
        (fun r hm => rowMatches_false_of_id r aid _ (hFresh r hm))
        (rowMatches_id _ _ (draftAgentRow_id aid org now inp))]
      rw [show selectRows [draftAgentRow aid2 org now2 inp] [("id", aid)] = [] from ?_]
      · rfl
      · apply selectRows_no_match
        intro r hr
        have hd : r = draftAgentRow aid2 org now2 inp := by simpa using hr
        apply rowMatches_false_of_id
        rw [hd, draftAgentRow_id]
        exact fun hh => hNe (Option.some.inj hh)
    · exact selectRows_fresh_append (s ++ [draftAgentRow aid org now inp]) _ _
        (fun r hm => rowMatches_false_of_id r aid2 _ (hFreshs1 r hm))
        (rowMatches_id _ _ (draftAgentRow_id aid2 org now2 inp))

/-- **C9** witness: a concrete keyed create and its replay through
`claim_C9` — the successful run's replay returns the identical
response, and the failing run's replay leaves a second draft record. -/
theorem claim_C9_witness :
    (idemReplayRuns [] [] "org_1" "key_1" ⟨"Agent one", none, "v1", "You help."⟩
        "a1" "t0" "a2" "t9" "" (.success (some "uv_123"))).2.resp =
      (idemReplayRuns [] [] "org_1" "key_1" ⟨"Agent one", none, "v1", "You help."⟩
        "a1" "t0" "a2" "t9" "" (.success (some "uv_123"))).1.resp ∧
    selectRows (idemReplayRuns [] [] "org_1" "key_1" ⟨"Agent one", none, "v1", "You help."⟩
        "a1" "t0" "a2" "t9" "" (.failure (.provider "ultravox" 503 "down"))).2.agents
      [("id", "a2")] =
      [draftAgentRow "a2" "org_1" "t9" ⟨"Agent one", none, "v1", "You help."⟩] :=
  ⟨(claim_C9 [] [] "org_1" "key_1" ⟨"Agent one", none, "v1", "You help."⟩ "a1" "t0" "a2"
      "t9" "uv_123" "" (.provider "ultravox" 503 "down") (by decide) (by simp) (by simp)
      (by decide) (by decide)).1.1,
   (claim_C9 [] [] "org_1" "key_1" ⟨"Agent one", none, "v1", "You help."⟩ "a1" "t0" "a2"
      "t9" "uv_123" "" (.provider "ultravox" 503 "down") (by decide) (by simp) (by simp)
      (by decide) (by decide)).2.2.2.2⟩
